import Mathlib

/-!
Shallow embedding of the GRec recommendation engine, translated from
src/utils.py and src/queries.py.  The neo4j Cypher queries are embedded as
Lean functions over an explicit property graph of users, recipes and
edges; the pandas / numpy post-processing is embedded over lists of rational
numbers.  Real-valued relevance scores (which use the natural logarithm)
are stated over the reals.
-/

namespace GRec

/-- Error kinds raised by the embedded code paths.  `graphQueryError` is the
exception class defined in src/utils.py; the two numpy constructors stand for
the exceptions numpy itself raises inside np.percentile (ValueError for an
out-of-range percentile, IndexError for an empty data array).  The last two
constructors name error classes that appear only in the specification: no
class of either name exists anywhere in the source.  They are included so
that the spec sentences mentioning them can be stated and compared with what
the code actually raises. -/
inductive PyError where
  | graphQueryError (message : String)
  | numpyIndexError (message : String)
  | numpyValueError (message : String)
  | emptyProfileError
  | invalidDirectionError
deriving DecidableEq, Repr

instance {ε α : Type} [DecidableEq ε] [DecidableEq α] : DecidableEq (Except ε α) := fun x y =>
  match x, y with
  | Except.ok a, Except.ok b =>
      if h : a = b then isTrue (by rw [h])
      else isFalse (by intro hc; injection hc; exact h (by assumption))
  | Except.error e, Except.error f =>
      if h : e = f then isTrue (by rw [h])
      else isFalse (by intro hc; injection hc; exact h (by assumption))
  | Except.ok _, Except.error _ => isFalse (by intro hc; injection hc)
  | Except.error _, Except.ok _ => isFalse (by intro hc; injection hc)

/-- Linear-interpolation step of np.percentile with its default method: on an
ascending-sorted list s and virtual index h it returns
s[floor h] + (h - floor h) * (s[floor h + 1] - s[floor h]), falling back to
s[floor h] when floor h is already the final index.  The none fallback is
unreachable for a non-empty list and h between 0 and length - 1. -/
def npInterp (s : List ℚ) (h : ℚ) : ℚ :=
  let i := (Int.floor h).toNat
  let lo := (s[i]?).getD 0
  match s[i + 1]? with
  | some hi => lo + (h - (i : ℚ)) * (hi - lo)
  | none => lo

/-- Embedding of np.percentile(a, q) (default linear interpolation).  numpy
first validates the requested percentile and raises ValueError when it is
outside [0, 100]; it then raises IndexError when the data array is empty;
otherwise it sorts the data and interpolates at virtual index
(len(a) - 1) * q / 100. -/
def npPercentile (a : List ℚ) (q : ℚ) : Except PyError ℚ :=
  if q < 0 ∨ 100 < q then
    Except.error (PyError.numpyValueError "Percentiles must be in the range [0, 100]")
  else if a = [] then
    Except.error (PyError.numpyIndexError "cannot do a non-empty take from an empty axes.")
  else
    Except.ok (npInterp (a.insertionSort (fun x y => x ≤ y)) (((a.length : ℚ) - 1) * q / 100))

/-- Row of the nutritional-values data frame produced by
get_user_nutritional_values in src/queries.py: the recipe id followed by the
seven decoded entries of the recipe nutrition JSON list. -/
structure NutrRow where
  recipeID : Nat
  calories : ℚ
  totalFat : ℚ
  sugar : ℚ
  sodium : ℚ
  protein : ℚ
  saturatedFat : ℚ
  carbs : ℚ
deriving DecidableEq, Repr

/-- Helper for get_nutritional_values: the pair
(np.percentile(xs, d_range[0]), np.percentile(xs, d_range[1])) for one
column, with the first failing call short-circuiting as in Python. -/
def nutrientRange (xs : List ℚ) (d_range : ℚ × ℚ) : Except PyError (ℚ × ℚ) :=
  match npPercentile xs d_range.1, npPercentile xs d_range.2 with
  | Except.ok lo, Except.ok hi => Except.ok (lo, hi)
  | Except.error e, _ => Except.error e
  | _, Except.error e => Except.error e

/-- Embedding of get_nutritional_values in src/utils.py.  It computes, in
source order, the (low, high) percentile range of the calories, totalFat,
sugar, sodium and protein columns only, and returns those five ranges (the
Python function returns them as a 5-tuple; the list keeps the same order).
No range is computed for the saturatedFat or carbs columns. -/
def get_nutritional_values (nutrVal : List NutrRow) (d_range : ℚ × ℚ) :
    Except PyError (List (ℚ × ℚ)) :=
  (nutrientRange (nutrVal.map NutrRow.calories) d_range).bind (fun calories_range =>
  (nutrientRange (nutrVal.map NutrRow.totalFat) d_range).bind (fun fat_range =>
  (nutrientRange (nutrVal.map NutrRow.sugar) d_range).bind (fun sugar_range =>
  (nutrientRange (nutrVal.map NutrRow.sodium) d_range).bind (fun sodium_range =>
  (nutrientRange (nutrVal.map NutrRow.protein) d_range).map (fun protein_range =>
    [calories_range, fat_range, sugar_range, sodium_range, protein_range])))))

/-- Python str.upper modelled character-wise (the source only ever feeds it
ASCII direction tokens). -/
def pyUpper (s : String) : String := String.mk (s.data.map Char.toUpper)

/-- The Cypher size pattern and node label that degree_counts would hand to
the external graph data source; the data-frame post-processing of the reply
belongs to the external collaborator and is not part of the embedded
fragment. -/
structure DegreePlan where
  node_label : String
  size_pattern : String
deriving DecidableEq, Repr

/-- Embedding of degree_counts in src/utils.py.  The direction token is
upper-cased; when it is not one of BOTH, IN, OUT the function raises
GraphQueryError before issuing any query (the Python message quotes the
three tokens; the quotes are dropped here).  Otherwise the function builds
the size pattern for the chosen direction and issues the query. -/
def degree_counts (node_label relationship_type direction : String) :
    Except PyError DegreePlan :=
  let dr := pyUpper direction
  if dr ≠ "BOTH" ∧ dr ≠ "IN" ∧ dr ≠ "OUT" then
    Except.error (PyError.graphQueryError
      ("direction must be one of \x7bBOTH, IN, OUT\x7d, but got " ++ dr))
  else if dr = "BOTH" then
    Except.ok ⟨node_label, "[(n)-[:" ++ relationship_type ++ "]-() | n]"⟩
  else if dr = "OUT" then
    Except.ok ⟨node_label, "[(n)-[:" ++ relationship_type ++ "]->() | n]"⟩
  else
    Except.ok ⟨node_label, "[(n)<-[:" ++ relationship_type ++ "]-() | n]"⟩

/-- Recipe node of the property graph, with its decoded JSON properties:
identity, name, decoded nutrition list, the names of the Ingredient nodes it
has WITH_INGREDIENTS edges to (one list entry per edge), and its decoded tag
list. -/
structure Recipe where
  rid : Nat
  rname : String
  nutrition : List ℚ
  ingredients : List String
  tags : List String
deriving DecidableEq, Repr

/-- Kind of a user-to-recipe interaction edge. -/
inductive EdgeKind where
  | reviewed
  | submitted
deriving DecidableEq, Repr

/-- Interaction edge from a User node to a Recipe node.  eid is the graph
identity of the relationship (Cypher requires the relationships of one MATCH
pattern to be pairwise distinct); the rating property is present on REVIEWED
edges and null on SUBMITTED ones. -/
structure Edge where
  kind : EdgeKind
  eid : Nat
  user : String
  recipe : Nat
  rating : Option ℚ
deriving DecidableEq, Repr

/-- The property graph the Cypher queries run against. -/
structure Graph where
  users : List String
  recipes : List Recipe
  edges : List Edge
deriving DecidableEq, Repr

/-- Whether a Recipe node with the given id exists. -/
def Graph.recipeHasId (g : Graph) (rid : Nat) : Bool :=
  g.recipes.any (fun r => r.rid = rid)

/-- The WHERE clause rel.rating >= 4 OR TYPE(rel) = SUBMITTED shared by the
preference queries.  On a SUBMITTED edge rel.rating is null; the Cypher
comparison null >= 4 yields null and null OR true is true, so a SUBMITTED
edge always passes and a REVIEWED edge passes exactly when its rating is at
least 4. -/
def Edge.isPositive (e : Edge) : Bool :=
  (match e.rating with
   | some rt => decide ((4 : ℚ) ≤ rt)
   | none => false) || decide (e.kind = EdgeKind.submitted)

/-- The positive interaction edges of one user whose target Recipe node
exists, in graph order. -/
def positiveEdges (g : Graph) (uid : String) : List Edge :=
  g.edges.filter (fun e => decide (e.user = uid) && g.recipeHasId e.recipe && e.isPositive)

/-- ORDER BY count DESC comparator used by the aggregation queries. -/
def byCountDesc (cnt : α → ℕ) (a b : α) : Prop := cnt b ≤ cnt a

instance (cnt : α → ℕ) : DecidableRel (byCountDesc cnt) := fun _ _ => Nat.decLe _ _

instance (cnt : α → ℕ) : IsTotal α (byCountDesc cnt) := ⟨fun a b => Nat.le_total (cnt b) (cnt a)⟩

instance (cnt : α → ℕ) : IsTrans α (byCountDesc cnt) := ⟨fun _ _ _ hab hbc => Nat.le_trans hbc hab⟩

/-- Row of the get_user_favourite_ingredients aggregation: an ingredient
name, COUNT(r) over the matched pattern rows, and COLLECT(r.id) over them. -/
structure FavRow where
  favoriteIngredient : String
  favCount : Nat
  favRecipes : List Nat
deriving DecidableEq, Repr

/-- Matched pattern rows of
(u)-[rel:REVIEWED or SUBMITTED]->(r:Recipe)-[:WITH_INGREDIENTS]->(i) for one
ingredient name: one (edge, recipe) entry per positive edge of the user, per
Recipe node carrying the edge target id, per WITH_INGREDIENTS edge of that
recipe to the named ingredient. -/
def favPairs (g : Graph) (uid : String) (nm : String) : List (Edge × Recipe) :=
  (positiveEdges g uid).flatMap (fun e =>
    (g.recipes.filter (fun r => decide (r.rid = e.recipe))).flatMap (fun r =>
      (r.ingredients.filter (fun s => decide (s = nm))).map (fun _ => (e, r))))

/-- The Cypher aggregation part of get_user_favourite_ingredients in
src/queries.py: group the matched rows by ingredient name (skipping the
excluded names), count them and collect the recipe ids, ORDER BY favCount
DESC.  A user id with no User node, or an ingredient with no matched row,
produces no rows. -/
def favAggregate (g : Graph) (uid : String) (excluded_ingr : List String) : List FavRow :=
  if uid ∈ g.users then
    List.insertionSort (byCountDesc FavRow.favCount)
      (((g.recipes.flatMap Recipe.ingredients).dedup.filter
          (fun nm => decide (nm ∉ excluded_ingr))).filterMap
        (fun nm =>
          let ps := favPairs g uid nm
          if ps.isEmpty then none
          else some ⟨nm, ps.length, ps.map (fun p => p.2.rid)⟩))
  else []

/-- The pandas post-processing shared by get_user_favourite_ingredients and
get_user_top_tags: when the aggregated frame is non-empty, compute
np.percentile over the de-duplicated count values and keep the rows whose
count is at least that threshold. -/
def countFilter (cnt : α → ℕ) (rows : List α) (percentil : ℚ) : Except PyError (List α) :=
  if rows.isEmpty then Except.ok rows
  else
    match npPercentile (((rows.map cnt).dedup).map (fun c : ℕ => (c : ℚ))) percentil with
    | Except.error e => Except.error e
    | Except.ok threshold_count =>
        Except.ok (rows.filter (fun r => decide (threshold_count ≤ (cnt r : ℚ))))

/-- Embedding of get_user_favourite_ingredients in src/queries.py. -/
def get_user_favourite_ingredients (g : Graph) (user_id : String)
    (excluded_ingr : List String) (percentil : ℚ) : Except PyError (List FavRow) :=
  countFilter FavRow.favCount (favAggregate g user_id excluded_ingr) percentil

/-- Row of the get_user_top_tags aggregation: a tag and COUNT(*) over the
unwound tag occurrences. -/
structure TagRow where
  tag : String
  tagCount : Nat
deriving DecidableEq, Repr

/-- All tag occurrences unwound from the recipes of the positive interaction
edges of one user, with multiplicity, in graph order. -/
def userTagList (g : Graph) (uid : String) : List String :=
  (positiveEdges g uid).flatMap (fun e =>
    (g.recipes.filter (fun r => decide (r.rid = e.recipe))).flatMap Recipe.tags)

/-- The Cypher aggregation part of get_user_top_tags in src/queries.py:
drop excluded tags, group the remaining occurrences by tag with COUNT(*),
ORDER BY tagCount DESC. -/
def tagAggregate (g : Graph) (uid : String) (excluded_tags : List String) : List TagRow :=
  if uid ∈ g.users then
    List.insertionSort (byCountDesc TagRow.tagCount)
      ((((userTagList g uid).filter (fun t => decide (t ∉ excluded_tags))).dedup).map
        (fun t => ⟨t, ((userTagList g uid).filter (fun s => decide (s = t))).length⟩))
  else []

/-- Embedding of get_user_top_tags in src/queries.py. -/
def get_user_top_tags (g : Graph) (user_id : String)
    (excluded_tags : List String) (percentil : ℚ) : Except PyError (List TagRow) :=
  countFilter TagRow.tagCount (tagAggregate g user_id excluded_tags) percentil

/-- Row of the get_recipe_w_ingreds query.  The query also computes a
relevanceScore column and sorts by it descending; that real-valued column is
stated separately through relevanceScore below, and the claims about this
query do not depend on row order. -/
structure IngredRow where
  recipeID : Nat
  recipeName : String
  recipeIngredients : List String
  matchCount : Nat
  totalIngredients : Nat
deriving DecidableEq, Repr

/-- Embedding of get_recipe_w_ingreds in src/queries.py: recipes with at
least one WITH_INGREDIENTS edge (the MATCH pattern requires one), whose id
is not excluded and whose collected ingredient names meet the favourites,
with the SIZE counts of the RETURN clause. -/
def get_recipe_w_ingreds (g : Graph) (excluded_recipes : List Nat)
    (favorite_ingredients : List String) : List IngredRow :=
  (g.recipes.filter (fun r =>
      decide (r.rid ∉ excluded_recipes) && !r.ingredients.isEmpty &&
      r.ingredients.any (fun i => decide (i ∈ favorite_ingredients)))).map
    (fun r =>
      ⟨r.rid, r.rname, r.ingredients,
        (r.ingredients.filter (fun i => decide (i ∈ favorite_ingredients))).length,
        r.ingredients.length⟩)

/-- Cypher nutritionList[i] > bound: an out-of-range index yields null and a
null comparison yields null, which the WHERE clause drops. -/
def gtAt (nl : List ℚ) (i : Nat) (bound : ℚ) : Bool :=
  match nl.get? i with
  | some v => decide (bound < v)
  | none => false

/-- Cypher nutritionList[i] < bound, with the same null convention. -/
def ltAt (nl : List ℚ) (i : Nat) (bound : ℚ) : Bool :=
  match nl.get? i with
  | some v => decide (v < bound)
  | none => false

/-- The shared nutrition WHERE clause of get_recipe_nutritional_values,
get_recipe_nutritional_ingreds and
find_matching_recipes_with_nutrition_and_tags, exactly as written in the
source: the lower bound tested against nutritionList[2] (the sugar entry) is
the parameter min_1, the low end of the fat range, not min_2 — the sugar
range parameter min_2 is bound by the Python call sites but never referenced
by the query text. -/
def nutritionWhere (nl : List ℚ)
    (calories_range fat_range sugar_range sodium_range protein_range
      sat_fat_range carbs_range : ℚ × ℚ) : Bool :=
  gtAt nl 0 calories_range.1 && ltAt nl 0 calories_range.2 &&
  gtAt nl 1 fat_range.1 && ltAt nl 1 fat_range.2 &&
  gtAt nl 2 fat_range.1 && ltAt nl 2 sugar_range.2 &&
  gtAt nl 3 sodium_range.1 && ltAt nl 3 sodium_range.2 &&
  gtAt nl 4 protein_range.1 && ltAt nl 4 protein_range.2 &&
  gtAt nl 5 sat_fat_range.1 && ltAt nl 5 sat_fat_range.2 &&
  gtAt nl 6 carbs_range.1 && ltAt nl 6 carbs_range.2

/-- Row of the get_recipe_nutritional_values query. -/
structure NutritionRow where
  recipeID : Nat
  recipeName : String
  nutritionList : List ℚ
deriving DecidableEq, Repr

/-- Embedding of get_recipe_nutritional_values in src/queries.py. -/
def get_recipe_nutritional_values (g : Graph) (interacted_recipes : List Nat)
    (calories_range fat_range sugar_range sodium_range protein_range
      sat_fat_range carbs_range : ℚ × ℚ) : List NutritionRow :=
  (g.recipes.filter (fun r =>
      decide (r.rid ∉ interacted_recipes) &&
      nutritionWhere r.nutrition calories_range fat_range sugar_range
        sodium_range protein_range sat_fat_range carbs_range)).map
    (fun r => ⟨r.rid, r.rname, r.nutrition⟩)

/-- Row of the get_recipe_nutritional_ingreds query (its real-valued
relevanceScore column is stated through relevanceScore below). -/
structure NutrIngredRow where
  recipeID : Nat
  recipeName : String
  recipeIngredients : List String
  nutritionList : List ℚ
deriving DecidableEq, Repr

/-- Embedding of get_recipe_nutritional_ingreds in src/queries.py: the
ingredient-overlap condition of get_recipe_w_ingreds conjoined with the
shared nutrition WHERE clause. -/
def get_recipe_nutritional_ingreds (g : Graph) (interacted_recipes : List Nat)
    (favorite_ingredients : List String)
    (calories_range fat_range sugar_range sodium_range protein_range
      sat_fat_range carbs_range : ℚ × ℚ) : List NutrIngredRow :=
  (g.recipes.filter (fun r =>
      decide (r.rid ∉ interacted_recipes) && !r.ingredients.isEmpty &&
      (r.ingredients.any (fun i => decide (i ∈ favorite_ingredients)) &&
        nutritionWhere r.nutrition calories_range fat_range sugar_range
          sodium_range protein_range sat_fat_range carbs_range))).map
    (fun r => ⟨r.rid, r.rname, r.ingredients, r.nutrition⟩)

/-- Row of the find_top_tag_matching_recipes query (again without its
real-valued relevanceScore column). -/
structure TagMatchRow where
  recipeID : Nat
  recipeName : String
  tagList : List String
  matchCount : Nat
  totalTags : Nat
deriving DecidableEq, Repr

/-- Embedding of find_top_tag_matching_recipes in src/queries.py.  The MATCH
clause is over bare Recipe nodes, so no edge-existence condition applies;
the ANY condition already rules out an empty tag list. -/
def find_top_tag_matching_recipes (g : Graph) (interacted_recipes : List Nat)
    (top_tags : List String) : List TagMatchRow :=
  (g.recipes.filter (fun r =>
      decide (r.rid ∉ interacted_recipes) &&
      r.tags.any (fun t => decide (t ∈ top_tags)))).map
    (fun r =>
      ⟨r.rid, r.rname, r.tags,
        (r.tags.filter (fun t => decide (t ∈ top_tags))).length,
        r.tags.length⟩)

/-- Row of the find_matching_recipes_with_nutrition_and_tags query: its
RETURN clause exposes only the two match counts besides id and name (the two
real-valued score columns are stated through relevanceScore below). -/
structure ComboRow where
  recipeID : Nat
  recipeName : String
  matchingIngreds : Nat
  matchingTags : Nat
deriving DecidableEq, Repr

/-- The output row find_matching_recipes_with_nutrition_and_tags builds for
one matched recipe. -/
def comboRow (r : Recipe) (favorite_ingredients top_tags : List String) : ComboRow :=
  ⟨r.rid, r.rname,
    (r.ingredients.filter (fun i => decide (i ∈ favorite_ingredients))).length,
    (r.tags.filter (fun t => decide (t ∈ top_tags))).length⟩

/-- Embedding of find_matching_recipes_with_nutrition_and_tags in
src/queries.py: ingredient overlap AND the shared nutrition WHERE clause AND
tag overlap, over non-excluded recipes with at least one WITH_INGREDIENTS
edge. -/
def find_matching_recipes_with_nutrition_and_tags (g : Graph)
    (interacted_recipes : List Nat) (favorite_ingredients top_tags : List String)
    (calories_range fat_range sugar_range sodium_range protein_range
      sat_fat_range carbs_range : ℚ × ℚ) : List ComboRow :=
  (g.recipes.filter (fun r =>
      decide (r.rid ∉ interacted_recipes) && !r.ingredients.isEmpty &&
      (r.ingredients.any (fun i => decide (i ∈ favorite_ingredients)) &&
        nutritionWhere r.nutrition calories_range fat_range sugar_range
          sodium_range protein_range sat_fat_range carbs_range &&
        r.tags.any (fun t => decide (t ∈ top_tags))))).map
    (fun r => comboRow r favorite_ingredients top_tags)

/-- The relevance-score expression the queries compute, over the collected
item list of one recipe and the favourite set of the axis:
toFloat(SIZE(matching items)) / SIZE(items) * log(1 + SIZE(items)), where
Cypher log is the natural logarithm. -/
noncomputable def relevanceScore (items favourites : List String) : ℝ :=
  (((items.filter (fun i => decide (i ∈ favourites))).length : ℝ) / (items.length : ℝ)) *
    Real.log (1 + (items.length : ℝ))

/-- Output row of get_hops_count. -/
structure HopsRow where
  userId : String
  interactedRecipesCount : Nat
  likeUsersCount : Nat
  potentialRecommendationsCount : Nat
deriving DecidableEq, Repr

/-- The matched rows of the second MATCH clause of get_hops_count, as
(r1 id, u2 id, r2 id) triples: a REVIEWED edge of u1 to a Recipe node r1, an
edge of a User node u2 into the same r1, and an edge of u2 to a Recipe node
r2 not among the collected userRecipes, the three relationships pairwise
distinct as Cypher pattern matching requires. -/
def hopsTriples (g : Graph) (uid : String) (userRecipes : List Nat) :
    List (Nat × String × Nat) :=
  g.edges.flatMap (fun rev1 =>
    g.edges.flatMap (fun e2 =>
      g.edges.filterMap (fun e3 =>
        if decide (rev1.kind = EdgeKind.reviewed) && decide (rev1.user = uid) &&
           g.recipeHasId rev1.recipe &&
           decide (e2.recipe = rev1.recipe) && decide (e2.user ∈ g.users) &&
           decide (e2.eid ≠ rev1.eid) &&
           decide (e3.user = e2.user) && g.recipeHasId e3.recipe &&
           decide (e3.eid ≠ rev1.eid) && decide (e3.eid ≠ e2.eid) &&
           decide (e3.recipe ∉ userRecipes)
        then some (rev1.recipe, e2.user, e3.recipe) else none)))

/-- Embedding of get_hops_count in src/queries.py.  The first MATCH collects
the recipes of every REVIEWED or SUBMITTED edge of the user; the second
MATCH expands the triples above; the RETURN clause carries the grouping key
u1.id next to its three COUNT(DISTINCT ...) aggregates, so when no row
survives the second MATCH the query returns no rows at all rather than a
zero-valued row. -/
def get_hops_count (g : Graph) (user_id : String) : List HopsRow :=
  if user_id ∈ g.users then
    let firstRows := g.edges.filter (fun e =>
      decide (e.user = user_id) && g.recipeHasId e.recipe)
    if firstRows.isEmpty then []
    else
      let userRecipes := firstRows.map Edge.recipe
      let triples := hopsTriples g user_id userRecipes
      if triples.isEmpty then []
      else
        [⟨user_id,
          (triples.map (fun t => t.1)).dedup.length,
          (triples.map (fun t => t.2.1)).dedup.length,
          (triples.map (fun t => t.2.2)).dedup.length⟩]
  else []

/-- Demo graph for the preference extractor: one user whose three five-star
reviews contribute the ingredient counts flour 3, sugar 2, salt 1 used in
the walkthrough of the specification. -/
def prefDemoGraph : Graph :=
  ⟨["u1"],
   [⟨1, "r1", [], ["flour", "sugar", "salt"], ["italian", "quick"]⟩,
    ⟨2, "r2", [], ["flour", "sugar"], ["italian"]⟩,
    ⟨3, "r3", [], ["flour"], []⟩],
   [⟨EdgeKind.reviewed, 0, "u1", 1, some 5⟩,
    ⟨EdgeKind.reviewed, 1, "u1", 2, some 5⟩,
    ⟨EdgeKind.reviewed, 2, "u1", 3, some 5⟩]⟩

/-- Demo graph for the candidate queries: recipe 1 qualifies on every axis
and recipe 5 plays the part of an already-interacted recipe. -/
def candDemoGraph : Graph :=
  ⟨["u1"],
   [⟨1, "pie", [100, 5, 20, 5, 5, 5, 5], ["flour", "butter"], ["dessert"]⟩,
    ⟨5, "old", [100, 5, 20, 5, 5, 5, 5], ["flour"], ["dessert"]⟩],
   []⟩

/-- The get_recipe_w_ingreds row of recipe 1 in candDemoGraph. -/
def demoIngredRow : IngredRow := ⟨1, "pie", ["flour", "butter"], 1, 2⟩

/-- The get_recipe_nutritional_values row of recipe 1 in candDemoGraph. -/
def demoNutritionRow : NutritionRow := ⟨1, "pie", [100, 5, 20, 5, 5, 5, 5]⟩

/-- The get_recipe_nutritional_ingreds row of recipe 1 in candDemoGraph. -/
def demoNutrIngredRow : NutrIngredRow := ⟨1, "pie", ["flour", "butter"], [100, 5, 20, 5, 5, 5, 5]⟩

/-- The find_top_tag_matching_recipes row of recipe 1 in candDemoGraph. -/
def demoTagMatchRow : TagMatchRow := ⟨1, "pie", ["dessert"], 1, 1⟩

/-- Demo graph for the sugar-bound slip: the single recipe has sugar value 5,
which is below the demo sugar range (10, 50) but above the demo fat low
bound 0. -/
def bugDemoGraph : Graph :=
  ⟨[], [⟨7, "bug", [100, 5, 5, 5, 5, 5, 5], ["flour"], ["dessert"]⟩], []⟩

/-- Demo graph for get_hops_count: the user has one SUBMITTED edge and no
REVIEWED edge. -/
def hopsDemoGraph : Graph :=
  ⟨["u1"], [⟨1, "pie", [], [], []⟩], [⟨EdgeKind.submitted, 0, "u1", 1, none⟩]⟩

/-- Demo nutritional-values frame with a single row, so every percentile of
a column equals that column's single value. -/
def nutrDemoRows : List NutrRow := [⟨1, 100, 10, 20, 30, 40, 50, 60⟩]

theorem floor_toNat_cast_le {h : ℚ} (h0 : 0 ≤ h) : (((Int.floor h).toNat : ℚ)) ≤ h := by
  have h1 : (((Int.floor h).toNat : ℤ)) = Int.floor h :=
    Int.toNat_of_nonneg (Int.floor_nonneg.mpr h0)
  have h2 : (((Int.floor h).toNat : ℚ)) = ((Int.floor h : ℤ) : ℚ) := by
    exact_mod_cast congrArg (fun z : ℤ => (z : ℚ)) h1
  rw [h2]
  exact Int.floor_le h

theorem lt_floor_toNat_cast_add_one {h : ℚ} (h0 : 0 ≤ h) :
    h < ((Int.floor h).toNat : ℚ) + 1 := by
  have h1 : (((Int.floor h).toNat : ℤ)) = Int.floor h :=
    Int.toNat_of_nonneg (Int.floor_nonneg.mpr h0)
  have h2 : (((Int.floor h).toNat : ℚ)) = ((Int.floor h : ℤ) : ℚ) := by
    exact_mod_cast congrArg (fun z : ℤ => (z : ℚ)) h1
  rw [h2]
  exact Int.lt_floor_add_one h

theorem sorted_getElem_le {s : List ℚ} (hs : s.Sorted (fun x y => x ≤ y))
    {i j : ℕ} (hi : i < s.length) (hj : j < s.length) (hij : i ≤ j) :
    s[i] ≤ s[j] := by
  have h2 : s.get ⟨i, hi⟩ ≤ s.get ⟨j, hj⟩ :=
    hs.rel_get_of_le (Fin.mk_le_mk.mpr hij)
  simpa [List.get_eq_getElem] using h2

theorem sorted_getElem_le_getLast {s : List ℚ} (hs : s.Sorted (fun x y => x ≤ y))
    {i : ℕ} (hi : i < s.length) (hne : s ≠ []) : s[i] ≤ s.getLast hne := by
  rw [List.getLast_eq_getElem]
  exact sorted_getElem_le hs hi (by omega) (by omega)

theorem npInterp_ge_get {s : List ℚ} (hs : s.Sorted (fun x y => x ≤ y)) {h : ℚ}
    (h0 : 0 ≤ h) (hilt : (Int.floor h).toNat < s.length) :
    s[(Int.floor h).toNat] ≤ npInterp s h := by
  have hlo : s[(Int.floor h).toNat]? = some s[(Int.floor h).toNat] :=
    List.getElem?_eq_getElem hilt
  cases hhi : s[(Int.floor h).toNat + 1]? with
  | none => simp [npInterp, hlo, hhi]
  | some hi =>
      obtain ⟨hh1, hh2⟩ := List.getElem?_eq_some.1 hhi
      have hlohi : s[(Int.floor h).toNat] ≤ hi := by
        rw [← hh2]
        exact sorted_getElem_le hs hilt hh1 (Nat.le_succ _)
      have hf : 0 ≤ h - (((Int.floor h).toNat : ℚ)) :=
        sub_nonneg.2 (floor_toNat_cast_le h0)
      have hnn : 0 ≤ (h - (((Int.floor h).toNat : ℚ))) * (hi - s[(Int.floor h).toNat]) :=
        mul_nonneg hf (by linarith)
      simp only [npInterp, hlo, hhi, Option.getD_some]
      linarith

theorem npInterp_le_get_succ {s : List ℚ} (hs : s.Sorted (fun x y => x ≤ y)) {h : ℚ}
    (h0 : 0 ≤ h) {hi : ℚ} (hhi : s[(Int.floor h).toNat + 1]? = some hi) :
    npInterp s h ≤ hi := by
  obtain ⟨hh1, hh2⟩ := List.getElem?_eq_some.1 hhi
  have hilt : (Int.floor h).toNat < s.length := by omega
  have hlo : s[(Int.floor h).toNat]? = some s[(Int.floor h).toNat] :=
    List.getElem?_eq_getElem hilt
  have hlohi : s[(Int.floor h).toNat] ≤ hi := by
    rw [← hh2]
    exact sorted_getElem_le hs hilt hh1 (Nat.le_succ _)
  have hf0 : 0 ≤ h - (((Int.floor h).toNat : ℚ)) :=
    sub_nonneg.2 (floor_toNat_cast_le h0)
  have hf1 : h - (((Int.floor h).toNat : ℚ)) ≤ 1 := by
    have := lt_floor_toNat_cast_add_one h0
    linarith
  simp only [npInterp, hlo, hhi, Option.getD_some]
  nlinarith [mul_nonneg (sub_nonneg.2 hf1) (sub_nonneg.2 hlohi)]

theorem npInterp_le_getLast {s : List ℚ} (hs : s.Sorted (fun x y => x ≤ y))
    (hne : s ≠ []) {h : ℚ} (h0 : 0 ≤ h) (hle : h ≤ (s.length : ℚ) - 1) :
    npInterp s h ≤ s.getLast hne := by
  have hilt : (Int.floor h).toNat < s.length := by
    have h1 : (((Int.floor h).toNat : ℚ)) ≤ (s.length : ℚ) - 1 :=
      le_trans (floor_toNat_cast_le h0) hle
    have h2 : (((Int.floor h).toNat : ℚ)) + 1 ≤ (s.length : ℚ) := by linarith
    exact_mod_cast h2
  cases hhi : s[(Int.floor h).toNat + 1]? with
  | some hi =>
      obtain ⟨hh1, hh2⟩ := List.getElem?_eq_some.1 hhi
      have h1 : npInterp s h ≤ hi := npInterp_le_get_succ hs h0 hhi
      have h2 : s[(Int.floor h).toNat + 1] ≤ s.getLast hne :=
        sorted_getElem_le_getLast hs hh1 hne
      rw [hh2] at h2
      exact le_trans h1 h2
  | none =>
      have hlo : s[(Int.floor h).toNat]? = some s[(Int.floor h).toNat] :=
        List.getElem?_eq_getElem hilt
      have heq : npInterp s h = s[(Int.floor h).toNat] := by
        simp only [npInterp, hlo, hhi, Option.getD_some]
      rw [heq]
      exact sorted_getElem_le_getLast hs hilt hne

theorem npInterp_mono {s : List ℚ} (hs : s.Sorted (fun x y => x ≤ y)) {h₁ h₂ : ℚ}
    (h0 : 0 ≤ h₁) (h12 : h₁ ≤ h₂) (hle : h₂ ≤ (s.length : ℚ) - 1) :
    npInterp s h₁ ≤ npInterp s h₂ := by
  have h02 : 0 ≤ h₂ := le_trans h0 h12
  have hii : (Int.floor h₁).toNat ≤ (Int.floor h₂).toNat :=
    Int.toNat_le_toNat (Int.floor_le_floor h12)
  have hi₂lt : (Int.floor h₂).toNat < s.length := by
    have h1 : (((Int.floor h₂).toNat : ℚ)) ≤ (s.length : ℚ) - 1 :=
      le_trans (floor_toNat_cast_le h02) hle
    have h2 : (((Int.floor h₂).toNat : ℚ)) + 1 ≤ (s.length : ℚ) := by linarith
    exact_mod_cast h2
  rcases Nat.lt_or_ge (Int.floor h₁).toNat (Int.floor h₂).toNat with hlt | hge
  · have hi₁1lt : (Int.floor h₁).toNat + 1 < s.length := by omega
    have hsucc : s[(Int.floor h₁).toNat + 1]? = some s[(Int.floor h₁).toNat + 1] :=
      List.getElem?_eq_getElem hi₁1lt
    have step1 : npInterp s h₁ ≤ s[(Int.floor h₁).toNat + 1] :=
      npInterp_le_get_succ hs h0 hsucc
    have step2 : s[(Int.floor h₁).toNat + 1] ≤ s[(Int.floor h₂).toNat] :=
      sorted_getElem_le hs hi₁1lt hi₂lt (by omega)
    have step3 : s[(Int.floor h₂).toNat] ≤ npInterp s h₂ :=
      npInterp_ge_get hs h02 hi₂lt
    linarith
  · have heq : (Int.floor h₁).toNat = (Int.floor h₂).toNat := le_antisymm hii hge
    have hi₁lt : (Int.floor h₁).toNat < s.length := heq ▸ hi₂lt
    have hlo : s[(Int.floor h₁).toNat]? = some s[(Int.floor h₁).toNat] :=
      List.getElem?_eq_getElem hi₁lt
    cases hhi : s[(Int.floor h₁).toNat + 1]? with
    | none =>
        have e1 : npInterp s h₁ = s[(Int.floor h₁).toNat] := by
          simp only [npInterp, hlo, hhi, Option.getD_some]
        have e2 : npInterp s h₂ = s[(Int.floor h₁).toNat] := by
          simp only [npInterp, ← heq, hlo, hhi, Option.getD_some]
        rw [e1, e2]
    | some hi =>
        obtain ⟨hh1, hh2⟩ := List.getElem?_eq_some.1 hhi
        have hlohi : s[(Int.floor h₁).toNat] ≤ hi := by
          rw [← hh2]
          exact sorted_getElem_le hs hi₁lt hh1 (Nat.le_succ _)
        have e1 : npInterp s h₁ = s[(Int.floor h₁).toNat] +
            (h₁ - (((Int.floor h₁).toNat : ℚ))) * (hi - s[(Int.floor h₁).toNat]) := by
          simp only [npInterp, hlo, hhi, Option.getD_some]
        have e2 : npInterp s h₂ = s[(Int.floor h₁).toNat] +
            (h₂ - (((Int.floor h₁).toNat : ℚ))) * (hi - s[(Int.floor h₁).toNat]) := by
          simp only [npInterp, ← heq, hlo, hhi, Option.getD_some]
        rw [e1, e2]
        have hstep : (h₁ - (((Int.floor h₁).toNat : ℚ))) * (hi - s[(Int.floor h₁).toNat]) ≤
            (h₂ - (((Int.floor h₁).toNat : ℚ))) * (hi - s[(Int.floor h₁).toNat]) :=
          mul_le_mul_of_nonneg_right (by linarith) (by linarith)
        linarith

theorem npPercentile_ok {a : List ℚ} (hne : a ≠ []) {q : ℚ} (h0 : 0 ≤ q) (h100 : q ≤ 100) :
    npPercentile a q =
      Except.ok (npInterp (a.insertionSort (fun x y => x ≤ y)) (((a.length : ℚ) - 1) * q / 100)) := by
  have h1 : ¬ (q < 0 ∨ 100 < q) := by push_neg; exact ⟨h0, h100⟩
  simp only [npPercentile, if_neg h1, if_neg hne]

theorem percentile_index_nonneg {n : ℕ} (hn : 1 ≤ n) {q : ℚ} (h0 : 0 ≤ q) :
    0 ≤ ((n : ℚ) - 1) * q / 100 := by
  have hn1 : (0 : ℚ) ≤ (n : ℚ) - 1 := by
    have : (1 : ℚ) ≤ (n : ℚ) := by exact_mod_cast hn
    linarith
  exact div_nonneg (mul_nonneg hn1 h0) (by norm_num)

theorem percentile_index_le {n : ℕ} (hn : 1 ≤ n) {q : ℚ} (h100 : q ≤ 100) :
    ((n : ℚ) - 1) * q / 100 ≤ (n : ℚ) - 1 := by
  have hn1 : (0 : ℚ) ≤ (n : ℚ) - 1 := by
    have : (1 : ℚ) ≤ (n : ℚ) := by exact_mod_cast hn
    linarith
  rw [div_le_iff₀ (by norm_num : (0 : ℚ) < 100)]
  nlinarith

theorem npPercentile_mono {a : List ℚ} (hne : a ≠ []) {q₁ q₂ : ℚ} (h0 : 0 ≤ q₁)
    (h12 : q₁ ≤ q₂) (h100 : q₂ ≤ 100) {t₁ t₂ : ℚ}
    (e₁ : npPercentile a q₁ = Except.ok t₁) (e₂ : npPercentile a q₂ = Except.ok t₂) :
    t₁ ≤ t₂ := by
  rw [npPercentile_ok hne h0 (le_trans h12 h100)] at e₁
  rw [npPercentile_ok hne (le_trans h0 h12) h100] at e₂
  simp only [Except.ok.injEq] at e₁ e₂
  subst e₁
  subst e₂
  have hn : 1 ≤ a.length := List.length_pos.mpr hne
  have hn1 : (0 : ℚ) ≤ (a.length : ℚ) - 1 := by
    have : (1 : ℚ) ≤ (a.length : ℚ) := by exact_mod_cast hn
    linarith
  have hsort : (a.insertionSort (fun x y => x ≤ y)).Sorted (fun x y => x ≤ y) :=
    List.sorted_insertionSort _ _
  have hlen : (a.insertionSort (fun x y => x ≤ y)).length = a.length :=
    List.length_insertionSort _ _
  apply npInterp_mono hsort (percentile_index_nonneg hn h0)
  · have hm := mul_le_mul_of_nonneg_left h12 hn1
    linarith
  · rw [hlen]
    exact percentile_index_le hn h100

theorem npPercentile_le_of_bound {a : List ℚ} (hne : a ≠ []) {q : ℚ} (h0 : 0 ≤ q)
    (h100 : q ≤ 100) {B : ℚ} (hB : ∀ x ∈ a, x ≤ B) {t : ℚ}
    (e : npPercentile a q = Except.ok t) : t ≤ B := by
  rw [npPercentile_ok hne h0 h100] at e
  simp only [Except.ok.injEq] at e
  subst e
  have hn : 1 ≤ a.length := List.length_pos.mpr hne
  have hsort : (a.insertionSort (fun x y => x ≤ y)).Sorted (fun x y => x ≤ y) :=
    List.sorted_insertionSort _ _
  have hlen : (a.insertionSort (fun x y => x ≤ y)).length = a.length :=
    List.length_insertionSort _ _
  have hsne : a.insertionSort (fun x y => x ≤ y) ≠ [] := by
    intro hc
    rw [hc] at hlen
    simp at hlen
    omega
  have h1 : npInterp (a.insertionSort (fun x y => x ≤ y)) (((a.length : ℚ) - 1) * q / 100) ≤
      (a.insertionSort (fun x y => x ≤ y)).getLast hsne := by
    apply npInterp_le_getLast hsort hsne (percentile_index_nonneg hn h0)
    rw [hlen]
    exact percentile_index_le hn h100
  have h2 : (a.insertionSort (fun x y => x ≤ y)).getLast hsne ∈ a :=
    (List.mem_insertionSort _).1 (List.getLast_mem hsne)
  exact le_trans h1 (hB _ h2)

theorem dedup_cast_ne_nil {α : Type} (cnt : α → ℕ) {rows : List α} (hne : rows ≠ []) :
    ((rows.map cnt).dedup).map (fun c : ℕ => (c : ℚ)) ≠ [] := by
  intro hc
  apply hne
  have h1 : (rows.map cnt).dedup = [] := List.map_eq_nil_iff.1 hc
  have h2 : rows.map cnt = [] := (List.dedup_eq_nil (rows.map cnt)).1 h1
  exact List.map_eq_nil_iff.1 h2

theorem countFilter_ok {α : Type} {cnt : α → ℕ} {rows : List α} (hne : rows ≠ [])
    {p : ℚ} (h0 : 0 ≤ p) (h100 : p ≤ 100) :
    ∃ t, npPercentile (((rows.map cnt).dedup).map (fun c : ℕ => (c : ℚ))) p = Except.ok t ∧
      countFilter cnt rows p = Except.ok (rows.filter (fun r => decide (t ≤ (cnt r : ℚ)))) := by
  obtain ⟨t, ht⟩ : ∃ t,
      npPercentile (((rows.map cnt).dedup).map (fun c : ℕ => (c : ℚ))) p = Except.ok t := by
    rw [npPercentile_ok (dedup_cast_ne_nil cnt hne) h0 h100]
    exact ⟨_, rfl⟩
  refine ⟨t, ht, ?_⟩
  unfold countFilter
  rw [if_neg (by simp [List.isEmpty_iff, hne]), ht]

theorem countFilter_mono {α : Type} (cnt : α → ℕ) (rows : List α) {p₁ p₂ : ℚ}
    (h0 : 0 ≤ p₁) (h12 : p₁ ≤ p₂) (h100 : p₂ ≤ 100) :
    ∃ o₁ o₂, countFilter cnt rows p₁ = Except.ok o₁ ∧
      countFilter cnt rows p₂ = Except.ok o₂ ∧ o₂.length ≤ o₁.length := by
  rcases eq_or_ne rows [] with rfl | hne
  · exact ⟨[], [], by simp [countFilter], by simp [countFilter], le_refl _⟩
  · obtain ⟨t₁, ht₁, e₁⟩ := countFilter_ok hne h0 (le_trans h12 h100)
    obtain ⟨t₂, ht₂, e₂⟩ := countFilter_ok hne (le_trans h0 h12) h100
    refine ⟨_, _, e₁, e₂, ?_⟩
    have htt : t₁ ≤ t₂ :=
      npPercentile_mono (dedup_cast_ne_nil cnt hne) h0 h12 h100 ht₁ ht₂
    have hsub : (rows.filter (fun r => decide (t₂ ≤ (cnt r : ℚ)))).Sublist
        (rows.filter (fun r => decide (t₁ ≤ (cnt r : ℚ)))) := by
      apply List.monotone_filter_right
      intro r hr
      simp only [decide_eq_true_eq] at hr ⊢
      linarith
    exact hsub.length_le

theorem exists_max_count {α : Type} (cnt : α → ℕ) :
    ∀ rows : List α, rows ≠ [] → ∃ r ∈ rows, ∀ r2 ∈ rows, cnt r2 ≤ cnt r := by
  intro rows
  induction rows with
  | nil => intro hc; exact absurd rfl hc
  | cons a l ih =>
      intro _
      rcases eq_or_ne l [] with rfl | hl
      · refine ⟨a, List.mem_cons_self a [], ?_⟩
        intro r2 hr2
        rcases List.mem_cons.1 hr2 with rfl | hr2
        · exact le_refl _
        · cases hr2
      · obtain ⟨r, hr, hmax⟩ := ih hl
        rcases le_total (cnt r) (cnt a) with hca | hca
        · refine ⟨a, List.mem_cons_self a l, ?_⟩
          intro r2 hr2
          rcases List.mem_cons.1 hr2 with rfl | hr2
          · exact le_refl _
          · exact le_trans (hmax r2 hr2) hca
        · refine ⟨r, List.mem_cons_of_mem _ hr, ?_⟩
          intro r2 hr2
          rcases List.mem_cons.1 hr2 with rfl | hr2
          · exact hca
          · exact hmax r2 hr2

theorem countFilter_max {α : Type} {cnt : α → ℕ} {rows : List α} (hne : rows ≠ [])
    {p : ℚ} (h0 : 0 ≤ p) (h100 : p ≤ 100) :
    ∃ out, countFilter cnt rows p = Except.ok out ∧ out ≠ [] ∧
      ∀ r ∈ rows, (∀ r2 ∈ rows, cnt r2 ≤ cnt r) → r ∈ out := by
  obtain ⟨t, ht, e⟩ := countFilter_ok hne h0 h100
  have hkeep : ∀ r ∈ rows, (∀ r2 ∈ rows, cnt r2 ≤ cnt r) →
      r ∈ rows.filter (fun r2 => decide (t ≤ (cnt r2 : ℚ))) := by
    intro r hr hmax
    apply List.mem_filter.2
    refine ⟨hr, ?_⟩
    simp only [decide_eq_true_eq]
    apply npPercentile_le_of_bound (dedup_cast_ne_nil cnt hne) h0 h100 ?_ ht
    intro x hx
    simp only [List.mem_map] at hx
    obtain ⟨c, hc, rfl⟩ := hx
    have hc2 : c ∈ rows.map cnt := List.dedup_subset (rows.map cnt) hc
    obtain ⟨r2, hr2, rfl⟩ := List.mem_map.1 hc2
    exact_mod_cast hmax r2 hr2
  obtain ⟨r, hr, hmax⟩ := exists_max_count cnt rows hne
  exact ⟨_, e, List.ne_nil_of_mem (hkeep r hr hmax), hkeep⟩

/-- C1: the claim that every nutrient value of a returned recipe lies
strictly inside the corresponding range fails on the code.  The demo recipe
has sugar value 5, below the sugar range (10, 50), yet all three
nutrition-axis queries return it, because the query text compares
nutritionList[2] against min_1 (the fat low bound, 0 here) instead of
min_2: the code contradicts its own inline comment SUGAR and its own unused
min_2 parameter. -/
theorem spec_C1 :
    get_recipe_nutritional_values bugDemoGraph []
        (0, 1000) (0, 100) (10, 50) (0, 100) (0, 100) (0, 100) (0, 100) =
      [⟨7, "bug", [100, 5, 5, 5, 5, 5, 5]⟩] ∧
    get_recipe_nutritional_ingreds bugDemoGraph [] ["flour"]
        (0, 1000) (0, 100) (10, 50) (0, 100) (0, 100) (0, 100) (0, 100) =
      [⟨7, "bug", ["flour"], [100, 5, 5, 5, 5, 5, 5]⟩] ∧
    find_matching_recipes_with_nutrition_and_tags bugDemoGraph [] ["flour"] ["dessert"]
        (0, 1000) (0, 100) (10, 50) (0, 100) (0, 100) (0, 100) (0, 100) =
      [⟨7, "bug", 1, 1⟩] ∧
    ¬ ((10 : ℚ) < 5) := by
  refine ⟨by decide, by decide, by decide, by decide⟩

/-- C3, amended: on an empty input frame get_nutritional_values always
raises an exception — numpy's IndexError from the first percentile call when
the requested percentiles are valid — and never returns any ranges; but the
exception is not an EmptyProfileError, because no such class exists in the
source. -/
theorem spec_C3 (d_range : ℚ × ℚ) :
    (∃ e, get_nutritional_values [] d_range = Except.error e) ∧
    (0 ≤ d_range.1 → d_range.1 ≤ 100 →
      get_nutritional_values [] d_range =
        Except.error (PyError.numpyIndexError
          "cannot do a non-empty take from an empty axes.")) := by
  constructor
  · by_cases hv : d_range.1 < 0 ∨ 100 < d_range.1
    · refine ⟨PyError.numpyValueError "Percentiles must be in the range [0, 100]", ?_⟩
      simp [get_nutritional_values, nutrientRange, npPercentile, hv, Except.bind]
    · refine ⟨PyError.numpyIndexError "cannot do a non-empty take from an empty axes.", ?_⟩
      simp [get_nutritional_values, nutrientRange, npPercentile, hv, Except.bind]
  · intro ha hb
    have hv : ¬ (d_range.1 < 0 ∨ 100 < d_range.1) := by push_neg; exact ⟨ha, hb⟩
    simp [get_nutritional_values, nutrientRange, npPercentile, hv, Except.bind]

/-- C3 witness: the default percentile pair on the empty frame. -/
theorem spec_C3_witness :
    get_nutritional_values [] ((25 : ℚ), (75 : ℚ)) =
      Except.error (PyError.numpyIndexError
        "cannot do a non-empty take from an empty axes.") :=
  (spec_C3 ((25 : ℚ), (75 : ℚ))).2 (by norm_num) (by norm_num)

/-- C3 counterexample to the claim as stated: the error raised on the empty
frame is not an EmptyProfileError. -/
theorem spec_C3_counterexample :
    get_nutritional_values [] ((25 : ℚ), (75 : ℚ)) ≠
      Except.error PyError.emptyProfileError := by
  have hv : ¬ ((25 : ℚ) < 0 ∨ 100 < (25 : ℚ)) := by norm_num
  simp [get_nutritional_values, nutrientRange, npPercentile, hv, Except.bind]

/-- C2, amended: on every non-empty input and valid percentile pair,
get_nutritional_values succeeds and returns exactly 5 (low, high) pairs —
for calories, totalFat, sugar, sodium and protein — not 7; no saturatedFat
or carbs range is computed. -/
theorem spec_C2 (nutrVal : List NutrRow) (d_range : ℚ × ℚ) (hne : nutrVal ≠ [])
    (h1 : 0 ≤ d_range.1) (h2 : d_range.1 ≤ 100)
    (h3 : 0 ≤ d_range.2) (h4 : d_range.2 ≤ 100) :
    ∃ rs, get_nutritional_values nutrVal d_range = Except.ok rs ∧ rs.length = 5 := by
  have hmap : ∀ f : NutrRow → ℚ, nutrVal.map f ≠ [] := by
    intro f hc
    exact hne (List.map_eq_nil_iff.1 hc)
  have hr : ∀ f : NutrRow → ℚ, ∃ pr, nutrientRange (nutrVal.map f) d_range = Except.ok pr := by
    intro f
    unfold nutrientRange
    rw [npPercentile_ok (hmap f) h1 h2, npPercentile_ok (hmap f) h3 h4]
    exact ⟨_, rfl⟩
  obtain ⟨p1, e1⟩ := hr NutrRow.calories
  obtain ⟨p2, e2⟩ := hr NutrRow.totalFat
  obtain ⟨p3, e3⟩ := hr NutrRow.sugar
  obtain ⟨p4, e4⟩ := hr NutrRow.sodium
  obtain ⟨p5, e5⟩ := hr NutrRow.protein
  refine ⟨[p1, p2, p3, p4, p5], ?_, rfl⟩
  simp [get_nutritional_values, e1, e2, e3, e4, e5, Except.bind, Except.map]

/-- C2 witness: the singleton demo frame with the default percentile pair. -/
theorem spec_C2_witness :
    ∃ rs, get_nutritional_values nutrDemoRows ((25 : ℚ), (75 : ℚ)) = Except.ok rs ∧
      rs.length = 5 :=
  spec_C2 nutrDemoRows ((25 : ℚ), (75 : ℚ)) (by decide)
    (by norm_num) (by norm_num) (by norm_num) (by norm_num)

/-- C2 counterexample to the claim as stated: on the demo frame the function
returns 5 ranges, not 7. -/
theorem spec_C2_counterexample :
    (get_nutritional_values nutrDemoRows ((25 : ℚ), (75 : ℚ))).toOption.map List.length =
      some 5 ∧
    (get_nutritional_values nutrDemoRows ((25 : ℚ), (75 : ℚ))).toOption.map List.length ≠
      some 7 := by
  have hv : ¬ ((25 : ℚ) < 0 ∨ 100 < (25 : ℚ)) := by norm_num
  have hv2 : ¬ ((75 : ℚ) < 0 ∨ 100 < (75 : ℚ)) := by norm_num
  have hcomp : get_nutritional_values nutrDemoRows ((25 : ℚ), (75 : ℚ)) =
      Except.ok [(100, 100), (10, 10), (20, 20), (30, 30), (40, 40)] := by
    simp only [get_nutritional_values, nutrientRange, npPercentile, nutrDemoRows,
      List.map_cons, List.map_nil, hv, hv2, if_false, if_neg, ite_false,
      List.insertionSort, List.orderedInsert, npInterp]
    norm_num [Except.bind, Except.map]
  rw [hcomp]
  refine ⟨rfl, by decide⟩

/-- The second MATCH of get_hops_count starts from a REVIEWED edge of the
user, so without such an edge it produces no rows. -/
theorem hopsTriples_eq_nil {g : Graph} {uid : String}
    (hno : ∀ e ∈ g.edges, e.user = uid → e.kind ≠ EdgeKind.reviewed)
    (userRecipes : List Nat) : hopsTriples g uid userRecipes = [] := by
  unfold hopsTriples
  apply List.flatMap_eq_nil_iff.mpr
  intro rev1 hrev
  apply List.flatMap_eq_nil_iff.mpr
  intro e2 _
  apply List.filterMap_eq_nil_iff.mpr
  intro e3 _
  rcases eq_or_ne rev1.user uid with heq | hne2
  · have hk := hno rev1 hrev heq
    simp [decide_eq_false hk]
  · simp [decide_eq_false hne2]

/-- C8, amended: for a user with no REVIEWED edge (whatever their SUBMITTED
edges) get_hops_count returns the empty result — no rows at all — because
the RETURN clause groups by u1.id and aggregates over zero matched rows; it
does not return a (0, 0, 0) row. -/
theorem spec_C8 (g : Graph) (uid : String)
    (hno : ∀ e ∈ g.edges, e.user = uid → e.kind ≠ EdgeKind.reviewed) :
    get_hops_count g uid = [] := by
  by_cases hu : uid ∈ g.users
  · simp [get_hops_count, hu, hopsTriples_eq_nil hno, ite_self]
  · simp [get_hops_count, hu]

/-- C8 witness: the demo user with one SUBMITTED edge and no REVIEWED edge. -/
theorem spec_C8_witness : get_hops_count hopsDemoGraph "u1" = [] :=
  spec_C8 hopsDemoGraph "u1" (by decide)

/-- C8 counterexample to the claim as stated: on the demo graph the result
is empty, not the single row (0, 0, 0) the claim promises. -/
theorem spec_C8_counterexample :
    get_hops_count hopsDemoGraph "u1" = [] ∧
    get_hops_count hopsDemoGraph "u1" ≠ [⟨"u1", 0, 0, 0⟩] := by
  refine ⟨by decide, by decide⟩

/-- C9, amended: when the upper-cased direction token is none of BOTH, IN,
OUT, degree_counts fails before building any query pattern — but the
exception it raises is the GraphQueryError defined in utils.py, not an
InvalidDirectionError, because no class of that name exists in the source.
No default direction is substituted: the result is an error, not a plan. -/
theorem spec_C9 (node_label relationship_type direction : String)
    (h1 : pyUpper direction ≠ "BOTH") (h2 : pyUpper direction ≠ "IN")
    (h3 : pyUpper direction ≠ "OUT") :
    degree_counts node_label relationship_type direction =
      Except.error (PyError.graphQueryError
        ("direction must be one of \x7bBOTH, IN, OUT\x7d, but got " ++ pyUpper direction)) := by
  simp [degree_counts, h1, h2, h3]

/-- C9 witness: a lower-case nonsense token. -/
theorem spec_C9_witness :
    degree_counts "User" "REVIEWED" "sideways" =
      Except.error (PyError.graphQueryError
        ("direction must be one of \x7bBOTH, IN, OUT\x7d, but got " ++ pyUpper "sideways")) :=
  spec_C9 "User" "REVIEWED" "sideways" (by decide) (by decide) (by decide)

/-- C9 counterexample to the claim as stated: the error raised for the bad
token is a GraphQueryError, not an InvalidDirectionError. -/
theorem spec_C9_counterexample :
    degree_counts "User" "REVIEWED" "sideways" =
      Except.error (PyError.graphQueryError
        "direction must be one of \x7bBOTH, IN, OUT\x7d, but got SIDEWAYS") ∧
    degree_counts "User" "REVIEWED" "sideways" ≠
      Except.error PyError.invalidDirectionError := by
  refine ⟨by decide, by decide⟩

/-- C4: for every axis combination of the candidate generator — ingredient
only, nutrition only, tag only, ingredient with nutrition, and ingredient
with nutrition and tags — no recipe id of the exclusion list appears among
the recipe ids of the output. -/
theorem spec_C4 :
    (∀ (g : Graph) (excluded : List Nat) (favs : List String) (row : IngredRow),
        row ∈ get_recipe_w_ingreds g excluded favs → row.recipeID ∉ excluded) ∧
    (∀ (g : Graph) (excluded : List Nat) (c f su so pr sa ca : ℚ × ℚ) (row : NutritionRow),
        row ∈ get_recipe_nutritional_values g excluded c f su so pr sa ca →
          row.recipeID ∉ excluded) ∧
    (∀ (g : Graph) (excluded : List Nat) (tags : List String) (row : TagMatchRow),
        row ∈ find_top_tag_matching_recipes g excluded tags → row.recipeID ∉ excluded) ∧
    (∀ (g : Graph) (excluded : List Nat) (favs : List String) (c f su so pr sa ca : ℚ × ℚ)
        (row : NutrIngredRow),
        row ∈ get_recipe_nutritional_ingreds g excluded favs c f su so pr sa ca →
          row.recipeID ∉ excluded) ∧
    (∀ (g : Graph) (excluded : List Nat) (favs tags : List String) (c f su so pr sa ca : ℚ × ℚ)
        (row : ComboRow),
        row ∈ find_matching_recipes_with_nutrition_and_tags g excluded favs tags c f su so pr sa ca →
          row.recipeID ∉ excluded) := by
  refine ⟨?_, ?_, ?_, ?_, ?_⟩
  · intro g excluded favs row hrow
    obtain ⟨r, hr, rfl⟩ := List.mem_map.1 hrow
    have hc := (List.mem_filter.1 hr).2
    simp only [Bool.and_eq_true, decide_eq_true_eq] at hc
    exact hc.1.1
  · intro g excluded c f su so pr sa ca row hrow
    obtain ⟨r, hr, rfl⟩ := List.mem_map.1 hrow
    have hc := (List.mem_filter.1 hr).2
    simp only [Bool.and_eq_true, decide_eq_true_eq] at hc
    exact hc.1
  · intro g excluded tags row hrow
    obtain ⟨r, hr, rfl⟩ := List.mem_map.1 hrow
    have hc := (List.mem_filter.1 hr).2
    simp only [Bool.and_eq_true, decide_eq_true_eq] at hc
    exact hc.1
  · intro g excluded favs c f su so pr sa ca row hrow
    obtain ⟨r, hr, rfl⟩ := List.mem_map.1 hrow
    have hc := (List.mem_filter.1 hr).2
    simp only [Bool.and_eq_true, decide_eq_true_eq] at hc
    exact hc.1.1
  · intro g excluded favs tags c f su so pr sa ca row hrow
    obtain ⟨r, hr, rfl⟩ := List.mem_map.1 hrow
    have hc := (List.mem_filter.1 hr).2
    simp only [Bool.and_eq_true, decide_eq_true_eq] at hc
    exact hc.1.1

/-- C4 witness: one concrete candidate per axis combination of the demo
graph, each with recipe 5 excluded. -/
theorem spec_C4_witness :
    (demoIngredRow ∈ get_recipe_w_ingreds candDemoGraph [5] ["flour"] ∧
      demoIngredRow.recipeID ∉ [5]) ∧
    (demoNutritionRow ∈ get_recipe_nutritional_values candDemoGraph [5]
        (0, 1000) (0, 100) (10, 50) (0, 100) (0, 100) (0, 100) (0, 100) ∧
      demoNutritionRow.recipeID ∉ [5]) ∧
    (demoTagMatchRow ∈ find_top_tag_matching_recipes candDemoGraph [5] ["dessert"] ∧
      demoTagMatchRow.recipeID ∉ [5]) ∧
    (demoNutrIngredRow ∈ get_recipe_nutritional_ingreds candDemoGraph [5] ["flour"]
        (0, 1000) (0, 100) (10, 50) (0, 100) (0, 100) (0, 100) (0, 100) ∧
      demoNutrIngredRow.recipeID ∉ [5]) ∧
    (comboRow ⟨1, "pie", [100, 5, 20, 5, 5, 5, 5], ["flour", "butter"], ["dessert"]⟩
        ["flour"] ["dessert"] ∈
      find_matching_recipes_with_nutrition_and_tags candDemoGraph [5] ["flour"] ["dessert"]
        (0, 1000) (0, 100) (10, 50) (0, 100) (0, 100) (0, 100) (0, 100) ∧
      (comboRow ⟨1, "pie", [100, 5, 20, 5, 5, 5, 5], ["flour", "butter"], ["dessert"]⟩
        ["flour"] ["dessert"]).recipeID ∉ [5]) :=
  ⟨⟨by decide, spec_C4.1 candDemoGraph [5] ["flour"] demoIngredRow (by decide)⟩,
   ⟨by decide, spec_C4.2.1 candDemoGraph [5]
      (0, 1000) (0, 100) (10, 50) (0, 100) (0, 100) (0, 100) (0, 100)
      demoNutritionRow (by decide)⟩,
   ⟨by decide, spec_C4.2.2.1 candDemoGraph [5] ["dessert"] demoTagMatchRow (by decide)⟩,
   ⟨by decide, spec_C4.2.2.2.1 candDemoGraph [5] ["flour"]
      (0, 1000) (0, 100) (10, 50) (0, 100) (0, 100) (0, 100) (0, 100)
      demoNutrIngredRow (by decide)⟩,
   ⟨by decide, spec_C4.2.2.2.2 candDemoGraph [5] ["flour"] ["dessert"]
      (0, 1000) (0, 100) (10, 50) (0, 100) (0, 100) (0, 100) (0, 100)
      (comboRow ⟨1, "pie", [100, 5, 20, 5, 5, 5, 5], ["flour", "butter"], ["dessert"]⟩
        ["flour"] ["dessert"]) (by decide)⟩⟩

/-- C5: for every candidate returned on the ingredient axis or the tag axis
with at least one item on that axis, the relevance-score expression of the
query equals (matched count / total count) times the natural logarithm of
(1 + total count), with the matched and total counts exactly the reported
row columns; and for the combined ingredient-nutrition-tag query the same
identity holds for each of its two per-axis scores, with the matched counts
the reported matchingIngreds and matchingTags columns. -/
theorem spec_C5 :
    (∀ (g : Graph) (excluded : List Nat) (favs : List String) (row : IngredRow),
        row ∈ get_recipe_w_ingreds g excluded favs → 1 ≤ row.totalIngredients →
        relevanceScore row.recipeIngredients favs =
          ((row.matchCount : ℝ) / (row.totalIngredients : ℝ)) *
            Real.log (1 + (row.totalIngredients : ℝ))) ∧
    (∀ (g : Graph) (excluded : List Nat) (tags : List String) (row : TagMatchRow),
        row ∈ find_top_tag_matching_recipes g excluded tags → 1 ≤ row.totalTags →
        relevanceScore row.tagList tags =
          ((row.matchCount : ℝ) / (row.totalTags : ℝ)) *
            Real.log (1 + (row.totalTags : ℝ))) ∧
    (∀ (g : Graph) (excluded : List Nat) (favs tags : List String)
        (c f su so pr sa ca : ℚ × ℚ) (r : Recipe),
        r ∈ g.recipes →
        comboRow r favs tags ∈
          find_matching_recipes_with_nutrition_and_tags g excluded favs tags c f su so pr sa ca →
        (1 ≤ r.ingredients.length →
          relevanceScore r.ingredients favs =
            (((comboRow r favs tags).matchingIngreds : ℝ) / (r.ingredients.length : ℝ)) *
              Real.log (1 + (r.ingredients.length : ℝ))) ∧
        (1 ≤ r.tags.length →
          relevanceScore r.tags tags =
            (((comboRow r favs tags).matchingTags : ℝ) / (r.tags.length : ℝ)) *
              Real.log (1 + (r.tags.length : ℝ)))) := by
  refine ⟨?_, ?_, ?_⟩
  · intro g excluded favs row hrow _
    obtain ⟨r, _, rfl⟩ := List.mem_map.1 hrow
    rfl
  · intro g excluded tags row hrow _
    obtain ⟨r, _, rfl⟩ := List.mem_map.1 hrow
    rfl
  · intro g excluded favs tags c f su so pr sa ca r _ _
    exact ⟨fun _ => rfl, fun _ => rfl⟩

/-- C5 witness: the demo candidate with 1 matching ingredient out of 2 total
scores one half times the natural logarithm of 3. -/
theorem spec_C5_witness :
    relevanceScore ["flour", "butter"] ["flour"] = ((1 : ℝ) / 2) * Real.log 3 := by
  have h := spec_C5.1 candDemoGraph [5] ["flour"] demoIngredRow (by decide) (by decide)
  have h2 : demoIngredRow.matchCount = 1 := rfl
  have h3 : demoIngredRow.totalIngredients = 2 := rfl
  rw [h2, h3] at h
  have h4 : relevanceScore demoIngredRow.recipeIngredients ["flour"] =
      relevanceScore ["flour", "butter"] ["flour"] := rfl
  rw [h4] at h
  rw [h]
  norm_num

/-- The ORDER BY favCount DESC of the ingredient aggregation. -/
theorem favAggregate_sorted (g : Graph) (uid : String) (excluded_ingr : List String) :
    (favAggregate g uid excluded_ingr).Sorted (byCountDesc FavRow.favCount) := by
  unfold favAggregate
  split
  · exact List.sorted_insertionSort _ _
  · exact List.sorted_nil

/-- The ORDER BY tagCount DESC of the tag aggregation. -/
theorem tagAggregate_sorted (g : Graph) (uid : String) (excluded_tags : List String) :
    (tagAggregate g uid excluded_tags).Sorted (byCountDesc TagRow.tagCount) := by
  unfold tagAggregate
  split
  · exact List.sorted_insertionSort _ _
  · exact List.sorted_nil

/-- C6: on every non-empty aggregated name-to-count result, both preference
extractors compute the threshold as np.percentile of the de-duplicated
count values and return exactly the rows whose count reaches it, still
ordered by descending count. -/
theorem spec_C6 (g : Graph) (uid : String) (excluded_ingr excluded_tags : List String)
    (p : ℚ) (h0 : 0 ≤ p) (h100 : p ≤ 100) :
    (favAggregate g uid excluded_ingr ≠ [] →
      ∃ t out,
        npPercentile ((((favAggregate g uid excluded_ingr).map FavRow.favCount).dedup).map
          (fun c : ℕ => (c : ℚ))) p = Except.ok t ∧
        get_user_favourite_ingredients g uid excluded_ingr p = Except.ok out ∧
        (∀ row, row ∈ out ↔ row ∈ favAggregate g uid excluded_ingr ∧ t ≤ (row.favCount : ℚ)) ∧
        out.Sorted (byCountDesc FavRow.favCount)) ∧
    (tagAggregate g uid excluded_tags ≠ [] →
      ∃ t out,
        npPercentile ((((tagAggregate g uid excluded_tags).map TagRow.tagCount).dedup).map
          (fun c : ℕ => (c : ℚ))) p = Except.ok t ∧
        get_user_top_tags g uid excluded_tags p = Except.ok out ∧
        (∀ row, row ∈ out ↔ row ∈ tagAggregate g uid excluded_tags ∧ t ≤ (row.tagCount : ℚ)) ∧
        out.Sorted (byCountDesc TagRow.tagCount)) := by
  constructor
  · intro hne
    obtain ⟨t, ht, e⟩ := countFilter_ok hne h0 h100
    refine ⟨t, _, ht, e, ?_, ?_⟩
    · intro row
      constructor
      · intro hrow
        have hm := List.mem_filter.1 hrow
        exact ⟨hm.1, by simpa using hm.2⟩
      · intro hrow
        exact List.mem_filter.2 ⟨hrow.1, by simpa using hrow.2⟩
    · exact (favAggregate_sorted g uid excluded_ingr).filter _
  · intro hne
    obtain ⟨t, ht, e⟩ := countFilter_ok hne h0 h100
    refine ⟨t, _, ht, e, ?_, ?_⟩
    · intro row
      constructor
      · intro hrow
        have hm := List.mem_filter.1 hrow
        exact ⟨hm.1, by simpa using hm.2⟩
      · intro hrow
        exact List.mem_filter.2 ⟨hrow.1, by simpa using hrow.2⟩
    · exact (tagAggregate_sorted g uid excluded_tags).filter _

/-- C6 witness: the demo user with counts flour 3, sugar 2, salt 1 and tags
italian 2, quick 1, at the 50th percentile. -/
theorem spec_C6_witness :
    (∃ t out,
        npPercentile ((((favAggregate prefDemoGraph "u1" []).map FavRow.favCount).dedup).map
          (fun c : ℕ => (c : ℚ))) 50 = Except.ok t ∧
        get_user_favourite_ingredients prefDemoGraph "u1" [] 50 = Except.ok out ∧
        (∀ row, row ∈ out ↔ row ∈ favAggregate prefDemoGraph "u1" [] ∧ t ≤ (row.favCount : ℚ)) ∧
        out.Sorted (byCountDesc FavRow.favCount)) ∧
    (∃ t out,
        npPercentile ((((tagAggregate prefDemoGraph "u1" []).map TagRow.tagCount).dedup).map
          (fun c : ℕ => (c : ℚ))) 50 = Except.ok t ∧
        get_user_top_tags prefDemoGraph "u1" [] 50 = Except.ok out ∧
        (∀ row, row ∈ out ↔ row ∈ tagAggregate prefDemoGraph "u1" [] ∧ t ≤ (row.tagCount : ℚ)) ∧
        out.Sorted (byCountDesc TagRow.tagCount)) :=
  ⟨(spec_C6 prefDemoGraph "u1" [] [] 50 (by norm_num) (by norm_num)).1 (by decide),
   (spec_C6 prefDemoGraph "u1" [] [] 50 (by norm_num) (by norm_num)).2 (by decide)⟩

/-- C7: for a fixed graph, user and exclusion list, the number of names
either preference extractor retains is non-increasing in the percentile. -/
theorem spec_C7 (g : Graph) (uid : String) (excluded_ingr excluded_tags : List String)
    (p₁ p₂ : ℚ) (h0 : 0 ≤ p₁) (h12 : p₁ ≤ p₂) (h100 : p₂ ≤ 100) :
    (∃ o₁ o₂, get_user_favourite_ingredients g uid excluded_ingr p₁ = Except.ok o₁ ∧
      get_user_favourite_ingredients g uid excluded_ingr p₂ = Except.ok o₂ ∧
      o₂.length ≤ o₁.length) ∧
    (∃ o₁ o₂, get_user_top_tags g uid excluded_tags p₁ = Except.ok o₁ ∧
      get_user_top_tags g uid excluded_tags p₂ = Except.ok o₂ ∧
      o₂.length ≤ o₁.length) :=
  ⟨countFilter_mono _ _ h0 h12 h100, countFilter_mono _ _ h0 h12 h100⟩

/-- C7 witness: percentiles 25 and 75 on the demo user. -/
theorem spec_C7_witness :
    (∃ o₁ o₂, get_user_favourite_ingredients prefDemoGraph "u1" [] 25 = Except.ok o₁ ∧
      get_user_favourite_ingredients prefDemoGraph "u1" [] 75 = Except.ok o₂ ∧
      o₂.length ≤ o₁.length) ∧
    (∃ o₁ o₂, get_user_top_tags prefDemoGraph "u1" [] 25 = Except.ok o₁ ∧
      get_user_top_tags prefDemoGraph "u1" [] 75 = Except.ok o₂ ∧
      o₂.length ≤ o₁.length) :=
  spec_C7 prefDemoGraph "u1" [] [] 25 75 (by norm_num) (by norm_num) (by norm_num)

/-- C10: on every non-empty aggregated result and percentile within
[0, 100], both preference extractors return a non-empty result, and every
row of maximal count is retained, because the percentile of the distinct
count values never exceeds the maximal count. -/
theorem spec_C10 (g : Graph) (uid : String) (excluded_ingr excluded_tags : List String)
    (p : ℚ) (h0 : 0 ≤ p) (h100 : p ≤ 100) :
    (favAggregate g uid excluded_ingr ≠ [] →
      ∃ out, get_user_favourite_ingredients g uid excluded_ingr p = Except.ok out ∧
        out ≠ [] ∧
        ∀ row ∈ favAggregate g uid excluded_ingr,
          (∀ row2 ∈ favAggregate g uid excluded_ingr, row2.favCount ≤ row.favCount) →
          row ∈ out) ∧
    (tagAggregate g uid excluded_tags ≠ [] →
      ∃ out, get_user_top_tags g uid excluded_tags p = Except.ok out ∧
        out ≠ [] ∧
        ∀ row ∈ tagAggregate g uid excluded_tags,
          (∀ row2 ∈ tagAggregate g uid excluded_tags, row2.tagCount ≤ row.tagCount) →
          row ∈ out) :=
  ⟨fun hne => countFilter_max hne h0 h100, fun hne => countFilter_max hne h0 h100⟩

/-- C10 witness: the demo user at the 50th percentile. -/
theorem spec_C10_witness :
    (∃ out, get_user_favourite_ingredients prefDemoGraph "u1" [] 50 = Except.ok out ∧
      out ≠ [] ∧
      ∀ row ∈ favAggregate prefDemoGraph "u1" [],
        (∀ row2 ∈ favAggregate prefDemoGraph "u1" [], row2.favCount ≤ row.favCount) →
        row ∈ out) ∧
    (∃ out, get_user_top_tags prefDemoGraph "u1" [] 50 = Except.ok out ∧
      out ≠ [] ∧
      ∀ row ∈ tagAggregate prefDemoGraph "u1" [],
        (∀ row2 ∈ tagAggregate prefDemoGraph "u1" [], row2.tagCount ≤ row.tagCount) →
        row ∈ out) :=
  ⟨(spec_C10 prefDemoGraph "u1" [] [] 50 (by norm_num) (by norm_num)).1 (by decide),
   (spec_C10 prefDemoGraph "u1" [] [] 50 (by norm_num) (by norm_num)).2 (by decide)⟩

end GRec
